import Mathlib

/-!
Verification of the MCP worker (`src/main.rs`), a Redis task-queue worker.

The program is embedded shallowly:

* `Json` models `serde_json::Value`; `parseJson` models the textual JSON
  parser (`serde_json::from_str`, parsing stage).
* `Task` / `TaskType` mirror the Rust structs (lines 9-22 of `main.rs`),
  and `taskFromJson` mirrors the serde-derived field-by-field struct
  deserializer: fields may come in any order, unknown fields are ignored,
  duplicate fields are an error, missing fields are an error, and the
  `task_type` enum is matched case-sensitively against "DOCKER"/"SHELL"
  (`#[serde(rename_all = "UPPERCASE")]` with already-uppercase variants).
* `utf8Lossy` models `String::from_utf8_lossy` (strict UTF-8, one
  replacement character per maximal invalid subpart).
* `execute_task` mirrors `execute_task` (lines 111-146); the external
  subprocess invocation is abstracted by a `DockerOutcome` oracle carrying
  either a launch failure or an exit status plus raw stdout/stderr bytes.
* `command_listener_step` mirrors one iteration of the `loop` in
  `command_listener` (lines 71-108): the pop outcome, the subprocess
  oracle, and the success of the `set_ex` write-back are inputs; the
  result-key store, the log lines emitted by the listener, and the sleep
  duration are outputs.  Diagnostic log calls inside `execute_task` and
  before the loop are write-only side effects with no control-flow
  feedback and are not modelled.
-/

/-- Model of `serde_json::Value`.  Numbers keep their raw lexeme: no claim
inspects numeric values, only structural shape. -/
inductive Json where
  | null : Json
  | bool (b : Bool) : Json
  | num (raw : String) : Json
  | str (s : String) : Json
  | arr (items : List Json) : Json
  | obj (fields : List (String × Json)) : Json

/-- Whitespace accepted between JSON tokens. -/
def isJsonWs (c : Char) : Bool :=
  c = ' ' || c = '\t' || c = '\n' || c = '\r'

/-- Drop leading JSON whitespace. -/
def skipWs : List Char → List Char
  | [] => []
  | c :: cs => if isJsonWs c then skipWs cs else c :: cs

/-- Expect an exact literal sequence of characters. -/
def expectLit : List Char → List Char → Option (List Char)
  | [], cs => some cs
  | _ :: _, [] => none
  | l :: ls, c :: cs => if c = l then expectLit ls cs else none

/-- Value of a hexadecimal digit, if the character is one. -/
def hexVal (c : Char) : Option Nat :=
  if '0' ≤ c ∧ c ≤ '9' then some (c.toNat - '0'.toNat)
  else if 'a' ≤ c ∧ c ≤ 'f' then some (c.toNat - 'a'.toNat + 10)
  else if 'A' ≤ c ∧ c ≤ 'F' then some (c.toNat - 'A'.toNat + 10)
  else none

/-- Read four hex digits of a `\u` escape. -/
def read4Hex : List Char → Option (Nat × List Char)
  | c1 :: c2 :: c3 :: c4 :: rest =>
    match hexVal c1, hexVal c2, hexVal c3, hexVal c4 with
    | some h1, some h2, some h3, some h4 =>
      some (((h1 * 16 + h2) * 16 + h3) * 16 + h4, rest)
    | _, _, _, _ => none
  | _ => none

/-- Parse the body of a JSON string after the opening quote, handling the
escapes serde accepts, rejecting raw control characters and unpaired
surrogates (as serde_json does). -/
def parseStrBody (fuel : Nat) (cs : List Char) (acc : List Char) :
    Option (String × List Char) :=
  match fuel with
  | 0 => none
  | fuel + 1 =>
    match cs with
    | [] => none
    | c :: rest =>
      if c = '"' then some (⟨acc.reverse⟩, rest)
      else if c = '\\' then
        match rest with
        | [] => none
        | e :: rest2 =>
          if e = '"' then parseStrBody fuel rest2 ('"' :: acc)
          else if e = '\\' then parseStrBody fuel rest2 ('\\' :: acc)
          else if e = '/' then parseStrBody fuel rest2 ('/' :: acc)
          else if e = 'b' then parseStrBody fuel rest2 (Char.ofNat 8 :: acc)
          else if e = 'f' then parseStrBody fuel rest2 (Char.ofNat 12 :: acc)
          else if e = 'n' then parseStrBody fuel rest2 ('\n' :: acc)
          else if e = 'r' then parseStrBody fuel rest2 ('\r' :: acc)
          else if e = 't' then parseStrBody fuel rest2 ('\t' :: acc)
          else if e = 'u' then
            match read4Hex rest2 with
            | none => none
            | some (n, rest3) =>
              if 0xD800 ≤ n ∧ n ≤ 0xDBFF then
                match rest3 with
                | '\\' :: 'u' :: rest4 =>
                  match read4Hex rest4 with
                  | none => none
                  | some (lo, rest5) =>
                    if 0xDC00 ≤ lo ∧ lo ≤ 0xDFFF then
                      let cp := 0x10000 + (n - 0xD800) * 0x400 + (lo - 0xDC00)
                      parseStrBody fuel rest5 (Char.ofNat cp :: acc)
                    else none
                | _ => none
              else if 0xDC00 ≤ n ∧ n ≤ 0xDFFF then none
              else parseStrBody fuel rest3 (Char.ofNat n :: acc)
          else none
      else if c.toNat < 0x20 then none
      else parseStrBody fuel rest (c :: acc)

/-- Digit characters of a number lexeme. -/
def takeDigits : List Char → List Char × List Char
  | [] => ([], [])
  | c :: cs =>
    if '0' ≤ c ∧ c ≤ '9' then
      let (ds, rest) := takeDigits cs
      (c :: ds, rest)
    else ([], c :: cs)

/-- Parse the integer part of a JSON number (no leading zeros, as serde
enforces); returns its lexeme characters. -/
def parseIntPart : List Char → Option (List Char × List Char)
  | [] => none
  | c :: cs =>
    if c = '0' then some ([c], cs)
    else if '1' ≤ c ∧ c ≤ '9' then
      let (ds, rest) := takeDigits cs
      some (c :: ds, rest)
    else none

/-- Parse the optional fraction part; empty lexeme when absent. -/
def parseFracPart : List Char → Option (List Char × List Char)
  | '.' :: cs =>
    match takeDigits cs with
    | ([], _) => none
    | (ds, rest) => some ('.' :: ds, rest)
  | cs => some ([], cs)

/-- Parse the optional exponent part; empty lexeme when absent. -/
def parseExpPart : List Char → Option (List Char × List Char)
  | c :: cs =>
    if c = 'e' ∨ c = 'E' then
      match cs with
      | s :: cs2 =>
        if s = '+' ∨ s = '-' then
          match takeDigits cs2 with
          | ([], _) => none
          | (ds, rest) => some (c :: s :: ds, rest)
        else
          match takeDigits cs with
          | ([], _) => none
          | (ds, rest) => some (c :: ds, rest)
      | [] => none
    else some ([], c :: cs)
  | [] => some ([], [])

/-- Parse a JSON number lexeme (after an optional leading minus captured by
the caller). -/
def parseNumber (cs : List Char) : Option (String × List Char) :=
  match parseIntPart cs with
  | none => none
  | some (ip, rest1) =>
    match parseFracPart rest1 with
    | none => none
    | some (fp, rest2) =>
      match parseExpPart rest2 with
      | none => none
      | some (ep, rest3) => some (⟨ip ++ fp ++ ep⟩, rest3)

mutual

/-- Fuel-indexed recursive-descent JSON value parser. -/
def parseValue (fuel : Nat) (cs : List Char) : Option (Json × List Char) :=
  match fuel with
  | 0 => none
  | fuel + 1 =>
    match skipWs cs with
    | [] => none
    | c :: rest =>
      if c = 'n' then
        (expectLit ['u', 'l', 'l'] rest).map (fun r => (Json.null, r))
      else if c = 't' then
        (expectLit ['r', 'u', 'e'] rest).map (fun r => (Json.bool true, r))
      else if c = 'f' then
        (expectLit ['a', 'l', 's', 'e'] rest).map (fun r => (Json.bool false, r))
      else if c = '"' then
        (parseStrBody (rest.length + 1) rest []).map (fun p => (Json.str p.1, p.2))
      else if c = '-' then
        (parseNumber rest).map (fun p => (Json.num ⟨'-' :: p.1.data⟩, p.2))
      else if '0' ≤ c ∧ c ≤ '9' then
        (parseNumber (c :: rest)).map (fun p => (Json.num p.1, p.2))
      else if c = '[' then
        match skipWs rest with
        | ']' :: rest2 => some (Json.arr [], rest2)
        | rest2 => (parseElems fuel rest2 []).map (fun p => (Json.arr p.1, p.2))
      else if c = '\x7b' then
        match skipWs rest with
        | '\x7d' :: rest2 => some (Json.obj [], rest2)
        | rest2 => (parseMembers fuel rest2 []).map (fun p => (Json.obj p.1, p.2))
      else none

/-- Parse the comma-separated elements of a non-empty array, up to and
including the closing bracket. -/
def parseElems (fuel : Nat) (cs : List Char) (acc : List Json) :
    Option (List Json × List Char) :=
  match fuel with
  | 0 => none
  | fuel + 1 =>
    match parseValue fuel cs with
    | none => none
    | some (v, rest) =>
      match skipWs rest with
      | ',' :: rest2 => parseElems fuel rest2 (v :: acc)
      | ']' :: rest2 => some ((v :: acc).reverse, rest2)
      | _ => none

/-- Parse the comma-separated members of a non-empty object, up to and
including the closing brace. -/
def parseMembers (fuel : Nat) (cs : List Char) (acc : List (String × Json)) :
    Option (List (String × Json) × List Char) :=
  match fuel with
  | 0 => none
  | fuel + 1 =>
    match skipWs cs with
    | '"' :: rest =>
      match parseStrBody (rest.length + 1) rest [] with
      | none => none
      | some (key, rest2) =>
        match skipWs rest2 with
        | ':' :: rest3 =>
          match parseValue fuel rest3 with
          | none => none
          | some (v, rest4) =>
            match skipWs rest4 with
            | ',' :: rest5 => parseMembers fuel rest5 ((key, v) :: acc)
            | '\x7d' :: rest5 => some (((key, v) :: acc).reverse, rest5)
            | _ => none
        | _ => none
    | _ => none

end

/-- Parse a whole payload string as one JSON document, requiring all input
to be consumed (as `serde_json::from_str` does). -/
def parseJson (s : String) : Option Json :=
  match parseValue (s.length + 2) s.data with
  | none => none
  | some (j, rest) => if skipWs rest = [] then some j else none

/-- Model of `serde_json::Value` string indexing used at line 120 of
`main.rs`: `task.details["command"]` yields `Null` when `details` is not
an object or the key is absent; on the map built by serde, a duplicated
key holds the value inserted last. -/
def Json.getField (j : Json) (key : String) : Json :=
  match j with
  | .obj fields => (lastLookup fields key).getD .null
  | _ => .null
where
  lastLookup : List (String × Json) → String → Option Json
    | [], _ => none
    | (k, v) :: rest, key =>
      match lastLookup rest key with
      | some r => some r
      | none => if k = key then some v else none

/-- Model of `Value::as_str`. -/
def Json.asStr : Json → Option String
  | .str s => some s
  | _ => none

namespace Worker

/-- Model of the Rust `TaskType` enum (lines 17-22 of `main.rs`). -/
inductive TaskType where
  | DOCKER : TaskType
  | SHELL : TaskType
deriving DecidableEq

/-- Model of the Rust `Task` struct (lines 9-15 of `main.rs`). -/
structure Task where
  id : String
  target_host : String
  task_type : TaskType
  details : Json

/-- Partial field assignment built up while the serde-derived deserializer
walks the members of the payload object. -/
structure RawFields where
  idF : Option String
  targetHostF : Option String
  taskTypeF : Option TaskType
  detailsF : Option Json

/-- Deserialize the `task_type` field: a string matched case-sensitively
against the uppercase variant names; anything else is an error. -/
def decodeTaskType : Json → Except String TaskType
  | .str s =>
    if s = "DOCKER" then .ok .DOCKER
    else if s = "SHELL" then .ok .SHELL
    else .error ("unknown variant " ++ s ++ ", expected DOCKER or SHELL")
  | _ => .error "invalid type: expected a string for task_type"

/-- Walk the object members in order, as the serde-derived `visit_map`
does: known fields are recorded (duplicates are an error, wrongly typed
values are an error), unknown fields are ignored. -/
def readFields : List (String × Json) → RawFields → Except String RawFields
  | [], acc => .ok acc
  | (k, v) :: rest, acc =>
    if k = "id" then
      match acc.idF with
      | some _ => .error "duplicate field id"
      | none =>
        match v with
        | .str s => readFields rest { acc with idF := some s }
        | _ => .error "invalid type: expected a string for id"
    else if k = "target_host" then
      match acc.targetHostF with
      | some _ => .error "duplicate field target_host"
      | none =>
        match v with
        | .str s => readFields rest { acc with targetHostF := some s }
        | _ => .error "invalid type: expected a string for target_host"
    else if k = "task_type" then
      match acc.taskTypeF with
      | some _ => .error "duplicate field task_type"
      | none =>
        match decodeTaskType v with
        | .ok tt => readFields rest { acc with taskTypeF := some tt }
        | .error e => .error e
    else if k = "details" then
      match acc.detailsF with
      | some _ => .error "duplicate field details"
      | none => readFields rest { acc with detailsF := some v }
    else readFields rest acc

/-- After all members are consumed, every struct field must have been
seen; the first missing one (in declaration order) is reported. -/
def finishRaw : RawFields → Except String Task
  | acc =>
    match acc.idF, acc.targetHostF, acc.taskTypeF, acc.detailsF with
    | some i, some th, some tt, some d => .ok ⟨i, th, tt, d⟩
    | none, _, _, _ => .error "missing field id"
    | _, none, _, _ => .error "missing field target_host"
    | _, _, none, _ => .error "missing field task_type"
    | _, _, _, none => .error "missing field details"

/-- Deserialize a `Task` from an already-parsed JSON value; the top level
must be an object. -/
def taskFromJson : Json → Except String Task
  | .obj entries =>
    match readFields entries ⟨none, none, none, none⟩ with
    | .ok acc => finishRaw acc
    | .error e => .error e
  | _ => .error "invalid type: expected struct Task"

/-- Model of `serde_json::from_str::<Task>` (line 80 of `main.rs`): parse
the payload text, then deserialize the struct. -/
def decodeTask (s : String) : Except String Task :=
  match parseJson s with
  | none => .error "JSON parse error"
  | some j => taskFromJson j

/-- Model of line 120: `task.details["command"].as_str().unwrap_or("")`. -/
def commandOf (details : Json) : String :=
  ((details.getField "command").asStr).getD ""

/-- Replacement character emitted by lossy UTF-8 decoding. -/
def replChar : Char := Char.ofNat 0xFFFD

/-- Valid range for a second byte, given the lead byte of a 3-byte
sequence (the E0/ED rows exclude overlong forms and surrogates). -/
def snd3ok (b b2 : Nat) : Prop :=
  if b = 0xE0 then 0xA0 ≤ b2 ∧ b2 < 0xC0
  else if b = 0xED then 0x80 ≤ b2 ∧ b2 < 0xA0
  else 0x80 ≤ b2 ∧ b2 < 0xC0

/-- Valid range for a second byte, given the lead byte of a 4-byte
sequence (the F0/F4 rows exclude overlong forms and values past
U+10FFFF). -/
def snd4ok (b b2 : Nat) : Prop :=
  if b = 0xF0 then 0x90 ≤ b2 ∧ b2 < 0xC0
  else if b = 0xF4 then 0x80 ≤ b2 ∧ b2 < 0x90
  else 0x80 ≤ b2 ∧ b2 < 0xC0

instance (b b2 : Nat) : Decidable (snd3ok b b2) := by
  unfold snd3ok; infer_instance

instance (b b2 : Nat) : Decidable (snd4ok b b2) := by
  unfold snd4ok; infer_instance

/-- Model of `String::from_utf8_lossy`: strict UTF-8 decoding where each
maximal invalid subpart is replaced by one U+FFFD and decoding resumes at
the offending byte. -/
def utf8LossyList : List Nat → List Char
  | [] => []
  | b :: rest =>
    if b < 0x80 then Char.ofNat b :: utf8LossyList rest
    else if b < 0xC2 then replChar :: utf8LossyList rest
    else if b < 0xE0 then
      match rest with
      | [] => [replChar]
      | b2 :: rest2 =>
        if 0x80 ≤ b2 ∧ b2 < 0xC0 then
          Char.ofNat ((b - 0xC0) * 0x40 + (b2 - 0x80)) :: utf8LossyList rest2
        else replChar :: utf8LossyList (b2 :: rest2)
    else if b < 0xF0 then
      match rest with
      | [] => [replChar]
      | b2 :: rest2 =>
        if snd3ok b b2 then
          match rest2 with
          | [] => [replChar]
          | b3 :: rest3 =>
            if 0x80 ≤ b3 ∧ b3 < 0xC0 then
              Char.ofNat ((b - 0xE0) * 0x1000 + (b2 - 0x80) * 0x40 + (b3 - 0x80)) ::
                utf8LossyList rest3
            else replChar :: utf8LossyList (b3 :: rest3)
        else replChar :: utf8LossyList (b2 :: rest2)
    else if b < 0xF5 then
      match rest with
      | [] => [replChar]
      | b2 :: rest2 =>
        if snd4ok b b2 then
          match rest2 with
          | [] => [replChar]
          | b3 :: rest3 =>
            if 0x80 ≤ b3 ∧ b3 < 0xC0 then
              match rest3 with
              | [] => [replChar]
              | b4 :: rest4 =>
                if 0x80 ≤ b4 ∧ b4 < 0xC0 then
                  Char.ofNat ((b - 0xF0) * 0x40000 + (b2 - 0x80) * 0x1000 +
                      (b3 - 0x80) * 0x40 + (b4 - 0x80)) :: utf8LossyList rest4
                else replChar :: utf8LossyList (b4 :: rest4)
            else replChar :: utf8LossyList (b3 :: rest3)
        else replChar :: utf8LossyList (b2 :: rest2)
    else replChar :: utf8LossyList rest

/-- Lossy decoding of subprocess output bytes into a string. -/
def utf8Lossy (bs : List Nat) : String := ⟨utf8LossyList bs⟩

/-- Byte list of an ASCII string, used to build concrete oracle outputs. -/
def asciiBytes (s : String) : List Nat := s.data.map Char.toNat

/-- Observable outcome of the `docker ps -a --format ...` subprocess
invocation (lines 124-131 of `main.rs`): either the launch itself fails
(binary missing, permission denied) or the subprocess runs to completion
with an exit status and raw output bytes. -/
inductive DockerOutcome where
  | launchFailure (msg : String) : DockerOutcome
  | completed (statusSuccess : Bool) (stdoutBytes stderrBytes : List Nat) : DockerOutcome

/-- Model of `execute_task` (lines 111-146 of `main.rs`).  The subprocess
is an oracle argument: the Rust function consults it only on the DOCKER /
list_containers path. -/
def execute_task (task : Task) (docker : DockerOutcome) : Except String String :=
  match task.task_type with
  | .SHELL => .ok "Shell command executed successfully."
  | .DOCKER =>
    let command := commandOf task.details
    if command = "list_containers" then
      match docker with
      | .launchFailure e => .error ("Failed to execute docker command: " ++ e)
      | .completed statusSuccess stdoutBytes stderrBytes =>
        if statusSuccess then .ok (utf8Lossy stdoutBytes)
        else .error ("Docker command failed: " ++ utf8Lossy stderrBytes)
    else .error ("Unsupported Docker command: " ++ command)

/-- Formatting of the executor outcome (lines 89-92 of `main.rs`). -/
def resultValue : Except String String → String
  | .ok output => "SUCCESS: " ++ output
  | .error e => "ERROR: " ++ e

/-- Result-key store of the broker: key, value and expiry of each live
record. -/
def Store : Type := List (String × String × Nat)

/-- Model of `set_ex` (line 94): writes the value under the key with the
given expiry, overwriting any prior record for the same key. -/
def setEx (store : Store) (key value : String) (ttl : Nat) : Store :=
  (key, value, ttl) :: (store : List (String × String × Nat)).filter (fun e => e.1 ≠ key)

/-- Record held under a key, if any. -/
def kvGet (store : Store) (key : String) : Option (String × Nat) :=
  match store with
  | [] => none
  | (k, v, t) :: rest => if k = key then some (v, t) else kvGet rest key

/-- Outcome of one iteration of the listener loop: the store after the
iteration, the log lines the listener emitted, and how long it sleeps
before the next pop. -/
structure StepOut where
  store : Store
  logs : List String
  sleepSecs : Nat

/-- Model of one iteration of the `loop` in `command_listener`
(lines 71-108 of `main.rs`).  `pop` is the outcome of the blocking BLPOP
(queue name and payload on success); `docker` is the subprocess oracle;
`setSucceeds` tells whether the `set_ex` write-back reaches the broker
(its `RedisResult` is bound to `_` and discarded by the code, so it can
influence nothing but the store). -/
def command_listener_step (pop : Except String (String × String))
    (docker : DockerOutcome) (setSucceeds : Bool) (store : Store) : StepOut :=
  match pop with
  | .ok (_queueName, jsonStr) =>
    match decodeTask jsonStr with
    | .ok task =>
      let res_key := "mcp::result::" ++ task.id
      let res_val := resultValue (execute_task task docker)
      { store := if setSucceeds then setEx store res_key res_val 3600 else store
        logs := [">>> RECEIVED: " ++ jsonStr,
                 "Processing Task ID: " ++ task.id,
                 "Result for task " ++ task.id ++ " written to Redis."]
        sleepSecs := 0 }
    | .error e =>
      { store := store
        logs := [">>> RECEIVED: " ++ jsonStr, "[ERROR] JSON Parse Error: " ++ e]
        sleepSecs := 0 }
  | .error e =>
    { store := store
      logs := ["[ERROR] Redis Error in Loop: " ++ e]
      sleepSecs := 5 }

/-- Helper: a key never offered to `readFields` leaves the corresponding
field assignment empty. -/
theorem readFields_none_stable :
    ∀ (entries : List (String × Json)) (acc acc' : RawFields),
      readFields entries acc = .ok acc' →
      (((∀ p ∈ entries, (p : String × Json).1 ≠ "id") →
          acc.idF = none → acc'.idF = none) ∧
       ((∀ p ∈ entries, (p : String × Json).1 ≠ "target_host") →
          acc.targetHostF = none → acc'.targetHostF = none) ∧
       ((∀ p ∈ entries, (p : String × Json).1 ≠ "task_type") →
          acc.taskTypeF = none → acc'.taskTypeF = none) ∧
       ((∀ p ∈ entries, (p : String × Json).1 ≠ "details") →
          acc.detailsF = none → acc'.detailsF = none)) := by
  intro entries
  induction entries with
  | nil =>
    intro acc acc' hr
    simp only [readFields] at hr
    cases hr
    exact ⟨fun _ h => h, fun _ h => h, fun _ h => h, fun _ h => h⟩
  | cons p rest ih =>
    obtain ⟨k, v⟩ := p
    intro acc acc' hr
    simp only [readFields] at hr
    by_cases h1 : k = "id"
    · rw [if_pos h1] at hr
      cases hid : acc.idF with
      | some s => rw [hid] at hr; cases hr
      | none =>
        rw [hid] at hr
        cases v with
        | str s =>
          obtain ⟨i1, i2, i3, i4⟩ := ih _ _ hr
          refine ⟨?_, ?_, ?_, ?_⟩
          · intro hk _
            exact absurd h1 (hk (k, Json.str s) (List.mem_cons_self _ _))
          · exact fun hk h0 => i2 (fun q hq => hk q (List.mem_cons_of_mem _ hq)) h0
          · exact fun hk h0 => i3 (fun q hq => hk q (List.mem_cons_of_mem _ hq)) h0
          · exact fun hk h0 => i4 (fun q hq => hk q (List.mem_cons_of_mem _ hq)) h0
        | null => cases hr
        | bool b => cases hr
        | num r => cases hr
        | arr xs => cases hr
        | obj fs => cases hr
    · rw [if_neg h1] at hr
      by_cases h2 : k = "target_host"
      · rw [if_pos h2] at hr
        cases hth : acc.targetHostF with
        | some s => rw [hth] at hr; cases hr
        | none =>
          rw [hth] at hr
          cases v with
          | str s =>
            obtain ⟨i1, i2, i3, i4⟩ := ih _ _ hr
            refine ⟨?_, ?_, ?_, ?_⟩
            · exact fun hk h0 => i1 (fun q hq => hk q (List.mem_cons_of_mem _ hq)) h0
            · intro hk _
              exact absurd h2 (hk (k, Json.str s) (List.mem_cons_self _ _))
            · exact fun hk h0 => i3 (fun q hq => hk q (List.mem_cons_of_mem _ hq)) h0
            · exact fun hk h0 => i4 (fun q hq => hk q (List.mem_cons_of_mem _ hq)) h0
          | null => cases hr
          | bool b => cases hr
          | num r => cases hr
          | arr xs => cases hr
          | obj fs => cases hr
      · rw [if_neg h2] at hr
        by_cases h3 : k = "task_type"
        · rw [if_pos h3] at hr
          cases htt : acc.taskTypeF with
          | some s => rw [htt] at hr; cases hr
          | none =>
            rw [htt] at hr
            cases hdt : decodeTaskType v with
            | error e => rw [hdt] at hr; cases hr
            | ok tt =>
              rw [hdt] at hr
              obtain ⟨i1, i2, i3, i4⟩ := ih _ _ hr
              refine ⟨?_, ?_, ?_, ?_⟩
              · exact fun hk h0 => i1 (fun q hq => hk q (List.mem_cons_of_mem _ hq)) h0
              · exact fun hk h0 => i2 (fun q hq => hk q (List.mem_cons_of_mem _ hq)) h0
              · intro hk _
                exact absurd h3 (hk (k, v) (List.mem_cons_self _ _))
              · exact fun hk h0 => i4 (fun q hq => hk q (List.mem_cons_of_mem _ hq)) h0
        · rw [if_neg h3] at hr
          by_cases h4 : k = "details"
          · rw [if_pos h4] at hr
            cases hdd : acc.detailsF with
            | some s => rw [hdd] at hr; cases hr
            | none =>
              rw [hdd] at hr
              obtain ⟨i1, i2, i3, i4⟩ := ih _ _ hr
              refine ⟨?_, ?_, ?_, ?_⟩
              · exact fun hk h0 => i1 (fun q hq => hk q (List.mem_cons_of_mem _ hq)) h0
              · exact fun hk h0 => i2 (fun q hq => hk q (List.mem_cons_of_mem _ hq)) h0
              · exact fun hk h0 => i3 (fun q hq => hk q (List.mem_cons_of_mem _ hq)) h0
              · intro hk _
                exact absurd h4 (hk (k, v) (List.mem_cons_self _ _))
          · rw [if_neg h4] at hr
            obtain ⟨i1, i2, i3, i4⟩ := ih _ _ hr
            refine ⟨?_, ?_, ?_, ?_⟩
            · exact fun hk h0 => i1 (fun q hq => hk q (List.mem_cons_of_mem _ hq)) h0
            · exact fun hk h0 => i2 (fun q hq => hk q (List.mem_cons_of_mem _ hq)) h0
            · exact fun hk h0 => i3 (fun q hq => hk q (List.mem_cons_of_mem _ hq)) h0
            · exact fun hk h0 => i4 (fun q hq => hk q (List.mem_cons_of_mem _ hq)) h0

/-- Helper: a field assignment with any field still empty makes the final
struct check fail. -/
theorem finishRaw_error_of_none (acc : RawFields)
    (h : acc.idF = none ∨ acc.targetHostF = none ∨
         acc.taskTypeF = none ∨ acc.detailsF = none) :
    ∃ e, finishRaw acc = .error e := by
  obtain ⟨i, th, tt, d⟩ := acc
  rcases i with _ | i <;> rcases th with _ | th <;>
    rcases tt with _ | tt <;> rcases d with _ | d <;>
    first
      | exact ⟨_, rfl⟩
      | (rcases h with h | h | h | h <;> cases h)

/-- Helper: a payload object that never mentions one of the four struct
field names cannot deserialize to a `Task`. -/
theorem taskFromJson_missing_key (entries : List (String × Json)) (key : String)
    (hkey : key = "id" ∨ key = "target_host" ∨ key = "task_type" ∨ key = "details")
    (hk : ∀ p ∈ entries, (p : String × Json).1 ≠ key) :
    ∃ e, taskFromJson (.obj entries) = .error e := by
  rcases hr : readFields entries ⟨none, none, none, none⟩ with e | acc
  · exact ⟨e, by simp [taskFromJson, hr]⟩
  · have hs := readFields_none_stable entries _ _ hr
    have hnone : acc.idF = none ∨ acc.targetHostF = none ∨
        acc.taskTypeF = none ∨ acc.detailsF = none := by
      rcases hkey with h | h | h | h
      · exact Or.inl (hs.1 (h ▸ hk) rfl)
      · exact Or.inr (Or.inl (hs.2.1 (h ▸ hk) rfl))
      · exact Or.inr (Or.inr (Or.inl (hs.2.2.1 (h ▸ hk) rfl)))
      · exact Or.inr (Or.inr (Or.inr (hs.2.2.2 (h ▸ hk) rfl)))
    obtain ⟨e, he⟩ := finishRaw_error_of_none acc hnone
    exact ⟨e, by simp [taskFromJson, hr, he]⟩

/-- Helper: writing a key makes it the live record under that key. -/
theorem kvGet_setEx (store : Store) (k v : String) (t : Nat) :
    kvGet (setEx store k v t) k = some (v, t) := by
  simp [setEx, kvGet]

/-- Helper: a key absent from an object is not found by the last-wins
lookup. -/
theorem lastLookup_none (fields : List (String × Json)) (key : String)
    (hk : ∀ p ∈ fields, (p : String × Json).1 ≠ key) :
    Json.getField.lastLookup fields key = none := by
  induction fields with
  | nil => rfl
  | cons p rest ih =>
    obtain ⟨k, v⟩ := p
    simp only [Json.getField.lastLookup]
    rw [ih (fun q hq => hk q (List.mem_cons_of_mem _ hq))]
    simp [hk (k, v) (List.mem_cons_self _ _)]

/-- C1: for every payload that decodes to a task with task_type DOCKER and
details command "list_containers", when the subprocess exits with status 0
and the write-back reaches the broker, the store afterwards holds under
key "mcp::result::<id>" the value "SUCCESS: " followed exactly by the
(lossily decoded) standard output of the subprocess, with a 3600-second
expiry. -/
theorem c1_docker_success_result (q s : String) (task : Task)
    (stdoutBytes stderrBytes : List Nat) (store : Store)
    (hdec : decodeTask s = .ok task)
    (htype : task.task_type = .DOCKER)
    (hcmd : commandOf task.details = "list_containers") :
    kvGet (command_listener_step (.ok (q, s))
        (.completed true stdoutBytes stderrBytes) true store).store
        ("mcp::result::" ++ task.id)
      = some ("SUCCESS: " ++ utf8Lossy stdoutBytes, 3600) := by
  have hex : execute_task task (.completed true stdoutBytes stderrBytes)
      = .ok (utf8Lossy stdoutBytes) := by
    simp [execute_task, htype, hcmd]
  simp [command_listener_step, hdec, hex, resultValue, kvGet_setEx]

/-- Witness for C1, matching the end-to-end scenario of the spec: task t1,
subprocess stdout one JSON line, result key mcp::result::t1. -/
theorem c1_docker_success_result_witness :
    kvGet (command_listener_step
        (.ok ("mcp::tasks::docker",
          "\x7b\"id\":\"t1\",\"target_host\":\"h1\",\"task_type\":\"DOCKER\",\"details\":\x7b\"command\":\"list_containers\"\x7d\x7d"))
        (.completed true (asciiBytes "\x7b\"Names\":\"c1\"\x7d") []) true []).store
        ("mcp::result::" ++ "t1")
      = some ("SUCCESS: " ++ utf8Lossy (asciiBytes "\x7b\"Names\":\"c1\"\x7d"), 3600) :=
  c1_docker_success_result "mcp::tasks::docker" _
    ⟨"t1", "h1", .DOCKER, Json.obj [("command", Json.str "list_containers")]⟩
    _ _ [] rfl rfl rfl

/-- C2 counterexample: the claim says the executor's error message on a
nonzero exit status is the standard-error text itself, but `execute_task`
prefixes it with "Docker command failed: " (line 136 of `main.rs`): with
stderr "boom" the executor returns error "Docker command failed: boom",
which differs from "boom". -/
theorem c2_stderr_passthrough_counterexample :
    execute_task
        ⟨"t1", "h1", .DOCKER, Json.obj [("command", Json.str "list_containers")]⟩
        (.completed false [] (asciiBytes "boom"))
      = .error ("Docker command failed: " ++ "boom")
    ∧ ("Docker command failed: " ++ "boom") ≠ "boom" :=
  ⟨rfl, by decide⟩

/-- C2 (amended): on a nonzero exit status the executor's error message is
"Docker command failed: " followed by the subprocess's standard-error
text, so the persisted Result Record value is "ERROR: Docker command
failed: " followed by that text, with a 3600-second expiry. -/
theorem c2_docker_failure_result (q s : String) (task : Task)
    (stdoutBytes stderrBytes : List Nat) (store : Store)
    (hdec : decodeTask s = .ok task)
    (htype : task.task_type = .DOCKER)
    (hcmd : commandOf task.details = "list_containers") :
    execute_task task (.completed false stdoutBytes stderrBytes)
      = .error ("Docker command failed: " ++ utf8Lossy stderrBytes)
    ∧ kvGet (command_listener_step (.ok (q, s))
          (.completed false stdoutBytes stderrBytes) true store).store
          ("mcp::result::" ++ task.id)
        = some ("ERROR: " ++ ("Docker command failed: " ++ utf8Lossy stderrBytes), 3600) := by
  have hex : execute_task task (.completed false stdoutBytes stderrBytes)
      = .error ("Docker command failed: " ++ utf8Lossy stderrBytes) := by
    simp [execute_task, htype, hcmd]
  refine ⟨hex, ?_⟩
  simp [command_listener_step, hdec, hex, resultValue, kvGet_setEx]

/-- Witness for the amended C2: stderr "boom" yields the record value
"ERROR: Docker command failed: boom". -/
theorem c2_docker_failure_result_witness :
    execute_task
        ⟨"t1", "h1", .DOCKER, Json.obj [("command", Json.str "list_containers")]⟩
        (.completed false [] (asciiBytes "boom"))
      = .error ("Docker command failed: " ++ utf8Lossy (asciiBytes "boom"))
    ∧ kvGet (command_listener_step
          (.ok ("mcp::tasks::docker",
            "\x7b\"id\":\"t1\",\"target_host\":\"h1\",\"task_type\":\"DOCKER\",\"details\":\x7b\"command\":\"list_containers\"\x7d\x7d"))
          (.completed false [] (asciiBytes "boom")) true []).store
          ("mcp::result::" ++ "t1")
        = some ("ERROR: " ++ ("Docker command failed: " ++ utf8Lossy (asciiBytes "boom")), 3600) :=
  c2_docker_failure_result "mcp::tasks::docker" _
    ⟨"t1", "h1", .DOCKER, Json.obj [("command", Json.str "list_containers")]⟩
    _ _ [] rfl rfl rfl

/-- C3: for every DOCKER task whose details command is anything other than
"list_containers" the executor fails with "Unsupported Docker command:
<command>" and that is what the Result Record holds (prefixed "ERROR: ");
a missing "command" field, a non-string "command" value, or a non-object
details value all read back as the empty string. -/
theorem c3_unsupported_command :
    (∀ (task : Task) (docker : DockerOutcome),
        task.task_type = .DOCKER → commandOf task.details ≠ "list_containers" →
        execute_task task docker
          = .error ("Unsupported Docker command: " ++ commandOf task.details))
    ∧ (∀ fields, (∀ p ∈ fields, (p : String × Json).1 ≠ "command") →
        commandOf (.obj fields) = "")
    ∧ (∀ d : Json, (d.getField "command").asStr = none → commandOf d = "")
    ∧ (∀ (q s : String) (task : Task) (docker : DockerOutcome) (store : Store),
        decodeTask s = .ok task → task.task_type = .DOCKER →
        commandOf task.details ≠ "list_containers" →
        kvGet (command_listener_step (.ok (q, s)) docker true store).store
            ("mcp::result::" ++ task.id)
          = some ("ERROR: " ++ ("Unsupported Docker command: " ++ commandOf task.details),
              3600)) := by
  refine ⟨?_, ?_, ?_, ?_⟩
  · intro task docker htype hcmd
    simp [execute_task, htype, hcmd]
  · intro fields hk
    simp [commandOf, Json.getField, lastLookup_none fields "command" hk, Json.asStr]
  · intro d h
    simp [commandOf, h]
  · intro q s task docker store hdec htype hcmd
    have hex : execute_task task docker
        = .error ("Unsupported Docker command: " ++ commandOf task.details) := by
      simp [execute_task, htype, hcmd]
    simp [command_listener_step, hdec, hex, resultValue, kvGet_setEx]

/-- Witness for C3, matching the end-to-end scenario of the spec: command
"bogus" yields the record value "ERROR: Unsupported Docker command:
bogus"; an empty details object reads back command "". -/
theorem c3_unsupported_command_witness :
    kvGet (command_listener_step
        (.ok ("mcp::tasks::docker",
          "\x7b\"id\":\"t2\",\"target_host\":\"h1\",\"task_type\":\"DOCKER\",\"details\":\x7b\"command\":\"bogus\"\x7d\x7d"))
        (.completed true [] []) true []).store
        ("mcp::result::" ++ "t2")
      = some ("ERROR: " ++ ("Unsupported Docker command: " ++
          commandOf (Json.obj [("command", Json.str "bogus")])), 3600)
    ∧ commandOf (Json.obj []) = ""
    ∧ commandOf (Json.str "not an object") = "" :=
  ⟨c3_unsupported_command.2.2.2 "mcp::tasks::docker" _
      ⟨"t2", "h1", .DOCKER, Json.obj [("command", Json.str "bogus")]⟩
      (.completed true [] []) [] rfl rfl (by decide),
   c3_unsupported_command.2.1 [] (fun p hp => absurd hp (List.not_mem_nil p)),
   c3_unsupported_command.2.2.1 (Json.str "not an object") rfl⟩

/-- C4: every task with task_type SHELL succeeds with the fixed string
"Shell command executed successfully." regardless of its details, and the
Result Record value is "SUCCESS: Shell command executed successfully."
with a 3600-second expiry. -/
theorem c4_shell_fixed_result :
    (∀ (task : Task) (docker : DockerOutcome), task.task_type = .SHELL →
        execute_task task docker = .ok "Shell command executed successfully.")
    ∧ (∀ (q s : String) (task : Task) (docker : DockerOutcome) (store : Store),
        decodeTask s = .ok task → task.task_type = .SHELL →
        kvGet (command_listener_step (.ok (q, s)) docker true store).store
            ("mcp::result::" ++ task.id)
          = some ("SUCCESS: " ++ "Shell command executed successfully.", 3600)) := by
  constructor
  · intro task docker htype
    simp [execute_task, htype]
  · intro q s task docker store hdec htype
    have hex : execute_task task docker = .ok "Shell command executed successfully." := by
      simp [execute_task, htype]
    simp [command_listener_step, hdec, hex, resultValue, kvGet_setEx]

/-- Witness for C4: a SHELL task with arbitrary junk details still
produces the fixed success record. -/
theorem c4_shell_fixed_result_witness :
    execute_task ⟨"t3", "h1", .SHELL, Json.null⟩ (.completed false [] [])
      = .ok "Shell command executed successfully."
    ∧ kvGet (command_listener_step
          (.ok ("mcp::tasks::shell",
            "\x7b\"id\":\"t3\",\"target_host\":\"h1\",\"task_type\":\"SHELL\",\"details\":\x7b\"anything\":42\x7d\x7d"))
          (.completed false [] []) true []).store
          ("mcp::result::" ++ "t3")
        = some ("SUCCESS: " ++ "Shell command executed successfully.", 3600) :=
  ⟨c4_shell_fixed_result.1 ⟨"t3", "h1", .SHELL, Json.null⟩ (.completed false [] []) rfl,
   c4_shell_fixed_result.2 "mcp::tasks::shell" _
     ⟨"t3", "h1", .SHELL, Json.obj [("anything", Json.num "42")]⟩
     (.completed false [] []) [] rfl rfl⟩

/-- C5: decoding a payload fails when the text is not well-formed JSON,
when the id or task_type field is missing, and when task_type is any
string other than exactly "DOCKER" or "SHELL"; with all struct fields
present and task_type in that vocabulary, decoding succeeds and yields
the corresponding Task; on a parsed payload the decode outcome is exactly
the struct deserialization of the parsed value. -/
theorem c5_decode_contract :
    (∀ s, parseJson s = none → ∃ e, decodeTask s = .error e)
    ∧ (∀ entries, (∀ p ∈ entries, (p : String × Json).1 ≠ "id") →
        ∃ e, taskFromJson (.obj entries) = .error e)
    ∧ (∀ entries, (∀ p ∈ entries, (p : String × Json).1 ≠ "task_type") →
        ∃ e, taskFromJson (.obj entries) = .error e)
    ∧ (∀ (i th ts : String) (d : Json), ts ≠ "DOCKER" → ts ≠ "SHELL" →
        ∃ e, taskFromJson (.obj [("id", .str i), ("target_host", .str th),
            ("task_type", .str ts), ("details", d)]) = .error e)
    ∧ (∀ (i th : String) (d : Json),
        taskFromJson (.obj [("id", .str i), ("target_host", .str th),
            ("task_type", .str "DOCKER"), ("details", d)]) = .ok ⟨i, th, .DOCKER, d⟩
        ∧ taskFromJson (.obj [("id", .str i), ("target_host", .str th),
            ("task_type", .str "SHELL"), ("details", d)]) = .ok ⟨i, th, .SHELL, d⟩)
    ∧ (∀ (s : String) (j : Json), parseJson s = some j → decodeTask s = taskFromJson j) := by
  refine ⟨?_, ?_, ?_, ?_, ?_, ?_⟩
  · intro s h
    exact ⟨"JSON parse error", by simp [decodeTask, h]⟩
  · intro entries hk
    exact taskFromJson_missing_key entries "id" (Or.inl rfl) hk
  · intro entries hk
    exact taskFromJson_missing_key entries "task_type" (Or.inr (Or.inr (Or.inl rfl))) hk
  · intro i th ts d h1 h2
    exact ⟨"unknown variant " ++ ts ++ ", expected DOCKER or SHELL",
      by simp [taskFromJson, readFields, decodeTaskType, h1, h2]⟩
  · intro i th d
    exact ⟨rfl, rfl⟩
  · intro s j h
    simp [decodeTask, h]

/-- Witness for C5: a non-JSON payload fails; an object without id fails;
a lowercase task_type "docker" fails; the full well-formed payload decodes
to the corresponding Task, both at the struct level and from the raw
payload text. -/
theorem c5_decode_contract_witness :
    (∃ e, decodeTask "not json" = .error e)
    ∧ (∃ e, taskFromJson (.obj [("target_host", Json.str "h1")]) = .error e)
    ∧ (∃ e, taskFromJson (.obj [("id", .str "t1"), ("target_host", .str "h1"),
        ("task_type", .str "docker"), ("details", Json.null)]) = .error e)
    ∧ taskFromJson (.obj [("id", .str "t1"), ("target_host", .str "h1"),
        ("task_type", .str "DOCKER"), ("details", Json.null)])
      = .ok ⟨"t1", "h1", .DOCKER, Json.null⟩
    ∧ decodeTask "\x7b\"id\":\"t1\",\"target_host\":\"h1\",\"task_type\":\"SHELL\",\"details\":null\x7d"
      = taskFromJson (.obj [("id", .str "t1"), ("target_host", .str "h1"),
          ("task_type", .str "SHELL"), ("details", Json.null)]) :=
  ⟨c5_decode_contract.1 "not json" rfl,
   c5_decode_contract.2.1 [("target_host", Json.str "h1")]
     (by intro p hp; rw [List.mem_singleton] at hp; subst hp; decide),
   c5_decode_contract.2.2.2.1 "t1" "h1" "docker" Json.null (by decide) (by decide),
   (c5_decode_contract.2.2.2.2.1 "t1" "h1" Json.null).1,
   c5_decode_contract.2.2.2.2.2
     "\x7b\"id\":\"t1\",\"target_host\":\"h1\",\"task_type\":\"SHELL\",\"details\":null\x7d"
     (.obj [("id", .str "t1"), ("target_host", .str "h1"),
       ("task_type", .str "SHELL"), ("details", Json.null)]) rfl⟩

/-- C6: a popped payload that fails decoding leaves the result-key store
untouched, emits only the received and parse-error log lines, and the
iteration completes with no sleep, handing control to the next pop. -/
theorem c6_decode_failure_no_write (q s e : String) (docker : DockerOutcome)
    (setSucceeds : Bool) (store : Store)
    (hdec : decodeTask s = .error e) :
    command_listener_step (.ok (q, s)) docker setSucceeds store
      = { store := store,
          logs := [">>> RECEIVED: " ++ s, "[ERROR] JSON Parse Error: " ++ e],
          sleepSecs := 0 } := by
  simp [command_listener_step, hdec]

/-- Witness for C6: a malformed payload is dropped with the store
unchanged. -/
theorem c6_decode_failure_no_write_witness :
    command_listener_step (.ok ("mcp::tasks::shell", "not json"))
        (.completed true [] []) true [("mcp::result::t9", "SUCCESS: old", 3600)]
      = { store := [("mcp::result::t9", "SUCCESS: old", 3600)],
          logs := [">>> RECEIVED: " ++ "not json",
                   "[ERROR] JSON Parse Error: " ++ "JSON parse error"],
          sleepSecs := 0 } :=
  c6_decode_failure_no_write "mcp::tasks::shell" "not json" "JSON parse error"
    (.completed true [] []) true [("mcp::result::t9", "SUCCESS: old", 3600)] rfl

/-- C7: `execute_task` is total on decoded tasks: it returns exactly one
of a success string or an error string; a subprocess launch failure
becomes the synthesized message "Failed to execute docker command: <e>";
and subprocess output bytes are decoded lossily, so any byte sequence
still yields a success string on a zero exit status. -/
theorem c7_executor_total :
    (∀ (task : Task) (docker : DockerOutcome),
        (∃ o, execute_task task docker = .ok o)
        ∨ (∃ m, execute_task task docker = .error m))
    ∧ (∀ (task : Task) (e : String), task.task_type = .DOCKER →
        commandOf task.details = "list_containers" →
        execute_task task (.launchFailure e)
          = .error ("Failed to execute docker command: " ++ e))
    ∧ (∀ (task : Task) (stdoutBytes stderrBytes : List Nat),
        task.task_type = .DOCKER → commandOf task.details = "list_containers" →
        execute_task task (.completed true stdoutBytes stderrBytes)
          = .ok (utf8Lossy stdoutBytes)) := by
  refine ⟨?_, ?_, ?_⟩
  · intro task docker
    rcases h : execute_task task docker with m | o
    · exact Or.inr ⟨m, rfl⟩
    · exact Or.inl ⟨o, rfl⟩
  · intro task e htype hcmd
    simp [execute_task, htype, hcmd]
  · intro task stdoutBytes stderrBytes htype hcmd
    simp [execute_task, htype, hcmd]

/-- Witness for C7: a launch failure is wrapped, and stdout that is not
valid UTF-8 (a stray 0xFF byte) still yields a success string instead of
a failure. -/
theorem c7_executor_total_witness :
    execute_task
        ⟨"t1", "h1", .DOCKER, Json.obj [("command", Json.str "list_containers")]⟩
        (.launchFailure "No such file or directory (os error 2)")
      = .error ("Failed to execute docker command: "
          ++ "No such file or directory (os error 2)")
    ∧ execute_task
        ⟨"t1", "h1", .DOCKER, Json.obj [("command", Json.str "list_containers")]⟩
        (.completed true [0xFF, 0x61] [])
      = .ok (utf8Lossy [0xFF, 0x61]) :=
  ⟨c7_executor_total.2.1
     ⟨"t1", "h1", .DOCKER, Json.obj [("command", Json.str "list_containers")]⟩
     "No such file or directory (os error 2)" rfl rfl,
   c7_executor_total.2.2
     ⟨"t1", "h1", .DOCKER, Json.obj [("command", Json.str "list_containers")]⟩
     [0xFF, 0x61] [] rfl rfl⟩

/-- C8 counterexample: the claim says a failed result write-back is
logged, but line 94 of `main.rs` binds the `RedisResult` of `set_ex` to
`_` and discards it: the iteration's log output is identical whether the
write-back succeeds or fails, and in both cases it ends with the
unconditional "Result for task <id> written to Redis." line, so the
failure is not logged. -/
theorem c8_write_failure_logged_counterexample :
    (command_listener_step
        (.ok ("mcp::tasks::shell",
          "\x7b\"id\":\"t2\",\"target_host\":\"h1\",\"task_type\":\"SHELL\",\"details\":null\x7d"))
        (.completed true [] []) false []).logs
      = (command_listener_step
        (.ok ("mcp::tasks::shell",
          "\x7b\"id\":\"t2\",\"target_host\":\"h1\",\"task_type\":\"SHELL\",\"details\":null\x7d"))
        (.completed true [] []) true []).logs
    ∧ (command_listener_step
        (.ok ("mcp::tasks::shell",
          "\x7b\"id\":\"t2\",\"target_host\":\"h1\",\"task_type\":\"SHELL\",\"details\":null\x7d"))
        (.completed true [] []) false []).logs
      = [">>> RECEIVED: "
           ++ "\x7b\"id\":\"t2\",\"target_host\":\"h1\",\"task_type\":\"SHELL\",\"details\":null\x7d",
         "Processing Task ID: t2",
         "Result for task t2 written to Redis."] :=
  ⟨rfl, rfl⟩

/-- C8 (amended): when the result write-back fails, the failure is
silently ignored rather than logged — the iteration's log lines and sleep
are identical to the successful case — the loop does not abort, and the
computed result is not retried or re-queued: the store is simply left
unchanged. -/
theorem c8_write_failure_ignored (pop : Except String (String × String))
    (docker : DockerOutcome) (store : Store) :
    (command_listener_step pop docker false store).logs
      = (command_listener_step pop docker true store).logs
    ∧ (command_listener_step pop docker false store).sleepSecs
      = (command_listener_step pop docker true store).sleepSecs
    ∧ (command_listener_step pop docker false store).store = store := by
  rcases pop with e | ⟨q, s⟩
  · exact ⟨rfl, rfl, rfl⟩
  · rcases hdec : decodeTask s with e | task <;>
      simp [command_listener_step, hdec]

/-- C9: a pop failure logs the error, sleeps exactly 5 seconds, leaves
the store untouched, and yields a state for the next iteration — the loop
step is a total function, so a broker error never terminates the loop. -/
theorem c9_pop_failure_backoff (e : String) (docker : DockerOutcome)
    (setSucceeds : Bool) (store : Store) :
    command_listener_step (.error e) docker setSucceeds store
      = { store := store,
          logs := ["[ERROR] Redis Error in Loop: " ++ e],
          sleepSecs := 5 } := rfl

/-- C10: decoding also fails when target_host or details is absent —
every one of the four struct fields (id, target_host, task_type, details)
must be present in the payload object for decoding to succeed. -/
theorem c10_all_fields_required :
    (∀ entries, (∀ p ∈ entries, (p : String × Json).1 ≠ "target_host") →
        ∃ e, taskFromJson (.obj entries) = .error e)
    ∧ (∀ entries, (∀ p ∈ entries, (p : String × Json).1 ≠ "details") →
        ∃ e, taskFromJson (.obj entries) = .error e)
    ∧ (∀ entries (t : Task), taskFromJson (.obj entries) = .ok t →
        (∃ p ∈ entries, (p : String × Json).1 = "id")
        ∧ (∃ p ∈ entries, (p : String × Json).1 = "target_host")
        ∧ (∃ p ∈ entries, (p : String × Json).1 = "task_type")
        ∧ (∃ p ∈ entries, (p : String × Json).1 = "details")) := by
  refine ⟨?_, ?_, ?_⟩
  · intro entries hk
    exact taskFromJson_missing_key entries "target_host" (Or.inr (Or.inl rfl)) hk
  · intro entries hk
    exact taskFromJson_missing_key entries "details" (Or.inr (Or.inr (Or.inr rfl))) hk
  · intro entries t hok
    refine ⟨?_, ?_, ?_, ?_⟩ <;> by_contra hno <;> push_neg at hno
    · obtain ⟨e, he⟩ := taskFromJson_missing_key entries "id" (Or.inl rfl) hno
      rw [hok] at he
      cases he
    · obtain ⟨e, he⟩ := taskFromJson_missing_key entries "target_host"
        (Or.inr (Or.inl rfl)) hno
      rw [hok] at he
      cases he
    · obtain ⟨e, he⟩ := taskFromJson_missing_key entries "task_type"
        (Or.inr (Or.inr (Or.inl rfl))) hno
      rw [hok] at he
      cases he
    · obtain ⟨e, he⟩ := taskFromJson_missing_key entries "details"
        (Or.inr (Or.inr (Or.inr rfl))) hno
      rw [hok] at he
      cases he

/-- Witness for C10: a payload carrying only id and task_type — the two
fields the spec lists as required — still fails to decode, for want of
target_host (and details). -/
theorem c10_all_fields_required_witness :
    (∃ e, taskFromJson (.obj [("id", Json.str "t1"),
        ("task_type", Json.str "SHELL")]) = .error e)
    ∧ (∃ e, taskFromJson (.obj [("id", Json.str "t1"), ("target_host", Json.str "h1"),
        ("task_type", Json.str "SHELL")]) = .error e)
    ∧ ((∃ p ∈ [("id", Json.str "t1"), ("target_host", Json.str "h1"),
          ("task_type", Json.str "SHELL"), ("details", Json.null)],
          (p : String × Json).1 = "target_host")
       ∧ (∃ p ∈ [("id", Json.str "t1"), ("target_host", Json.str "h1"),
          ("task_type", Json.str "SHELL"), ("details", Json.null)],
          (p : String × Json).1 = "details")) :=
  ⟨c10_all_fields_required.1 [("id", Json.str "t1"), ("task_type", Json.str "SHELL")]
     (by decide),
   c10_all_fields_required.2.1
     [("id", Json.str "t1"), ("target_host", Json.str "h1"), ("task_type", Json.str "SHELL")]
     (by decide),
   ⟨(c10_all_fields_required.2.2
      [("id", Json.str "t1"), ("target_host", Json.str "h1"),
        ("task_type", Json.str "SHELL"), ("details", Json.null)]
      ⟨"t1", "h1", .SHELL, Json.null⟩ rfl).2.1,
    (c10_all_fields_required.2.2
      [("id", Json.str "t1"), ("target_host", Json.str "h1"),
        ("task_type", Json.str "SHELL"), ("details", Json.null)]
      ⟨"t1", "h1", .SHELL, Json.null⟩ rfl).2.2.2⟩⟩

end Worker
